import Mathlib

/-!
Verification development for a small Express backend (`src/app.js`) that
uploads spreadsheets of question/answer pairs, answers free-text questions
against them via a fuzzy index, and offers CRUD over the stored sheets.

The embedding models the process-wide mutable state (the `scriptMappings`
object mirrored to `script_mappings.json`, the in-memory `excelData` index
table, the `uploads/` directory, the `script_links.txt` log, and the
`Date.now()` clock) and one Lean function per HTTP handler, translated
directly from the source. The two external libraries the handlers call
(the `xlsx` sheet codec and the `fuse.js` fuzzy matcher) are not part of
this repository's sources; they are modelled from the spec's contracts for
them, and each such definition is marked `Modelled from the spec:`.
-/

namespace QnaApp

/-- A decoded sheet row: an ordered mapping from column name to cell value,
as produced by `XLSX.utils.sheet_to_json` (one JS object per data row). -/
abbrev Row := List (String × String)

/-- Field access on a row object (`row.Question`, `row.Answer`):
`none` models JS `undefined` for an absent column. -/
def rowGet (r : Row) (k : String) : Option String :=
  (r.find? (fun p => p.1 == k)).map (fun p => p.2)

/-- JS truthiness of a possibly-absent string value: `undefined` and the
empty string are falsy, every other string is truthy. The upload handler
tests `!sheet[0].Question || !sheet[0].Answer` with these semantics. -/
def jsTruthy (v : Option String) : Bool :=
  match v with
  | none => false
  | some s => !(s == "")

/-- One entry of `scriptMappings` (persisted in `script_mappings.json`):
`scriptMappings[fileName] = { scriptId, redirectUrl, clientName }`. -/
structure ScriptRecord where
  scriptId : String
  redirectUrl : String
  clientName : String
deriving DecidableEq, Repr

/-- Property read on a JS object modelled as an ordered association list:
first binding wins (keys are unique in every state the app constructs). -/
def objGet {α : Type} (m : List (String × α)) (k : String) : Option α :=
  (m.find? (fun p => p.1 == k)).map (fun p => p.2)

/-- Property write `obj[k] = v` on a JS object: an existing key keeps its
position and is overwritten, a new key is appended (JS property order). -/
def objSet {α : Type} (m : List (String × α)) (k : String) (v : α) :
    List (String × α) :=
  match m.any (fun p => p.1 == k) with
  | true => m.map (fun p => match p.1 == k with | true => (k, v) | false => p)
  | false => m ++ [(k, v)]

/-- Property removal `delete obj[k]` on a JS object. -/
def objDel {α : Type} (m : List (String × α)) (k : String) :
    List (String × α) :=
  m.filter (fun p => !(p.1 == k))

/-- Substring test, modelling JS `String.prototype.includes`. -/
def strIncludes (hay needle : String) : Bool :=
  (List.range (hay.data.length + 1)).any
    (fun i => ((hay.data.drop i).take needle.data.length) == needle.data)

/-- Lowercasing as JS `String.prototype.toLowerCase`, applied character
by character (the questions and queries here are plain ASCII text). -/
def strLower (s : String) : String := ⟨s.data.map Char.toLower⟩

/-- Whitespace-stripping as JS `String.prototype.trim`: drop leading and
trailing whitespace characters. -/
def strTrim (s : String) : String :=
  ⟨((s.data.dropWhile Char.isWhitespace).reverse.dropWhile
      Char.isWhitespace).reverse⟩

/-- A JSON value as found in a request body field; only the shapes the
handlers distinguish are represented. -/
inductive JsVal where
  | str (s : String)
  | num (n : Int)
  | bool (b : Bool)
  | null
deriving DecidableEq, Repr

/-- Evaluation of `req.body.question?.toLowerCase()`: optional chaining
yields `undefined` when the field is absent (`none`) or `null`; calling
`.toLowerCase()` on a number or boolean throws a `TypeError` (`.error`). -/
def jsOptToLower (v : Option JsVal) : Except Unit (Option String) :=
  match v with
  | none => .ok none
  | some .null => .ok none
  | some (.str s) => .ok (some (strLower s))
  | some (.num _) => .error ()
  | some (.bool _) => .error ()

/-- Modelled from the spec: the `fuse.js` matcher built with
`keys: ["Question"], threshold: 0.4` is a black-box scorer whose contract
the spec gives as: normalize case-insensitively, score every row on its
`Question` field, rank best first (stable, so equal scores keep row
order). We model the scorer by its one specified certainty: a row whose
`Question` equals the pattern up to case is a perfect match (score 0,
clears any threshold), and rows that do not match are excluded. -/
def fuseMatches (pattern : String) (r : Row) : Bool :=
  match rowGet r "Question" with
  | some s => strLower s == strLower pattern
  | none => false

/-- Modelled from the spec: `fuse.search(pattern)` returns the matching
rows best-ranked first. Calling it with `undefined` (an absent pattern)
throws inside the library, modelled as `.error`. -/
def fuseSearch (rows : List Row) (pattern : Option String) :
    Except Unit (List Row) :=
  match pattern with
  | none => .error ()
  | some p => .ok (rows.filter (fuseMatches p))

/-- The process-wide state of the server. `scriptMappings` is the
in-memory record store, `mappingsFile` the persisted copy in
`script_mappings.json`, `excelData` the in-memory question-index table
keyed by `scriptId` (the `fuse` member of each entry is a pure function of
the stored `sheet`, so only the sheet is kept), `uploads` the contents of
the `uploads/` directory at the sheet-codec level (`Modelled from the
spec:` the `xlsx` codec is opaque: `encode` stores exactly the given rows
and `decode` returns them; a missing file makes `decode`/read throw),
`linkLog` the lines of `script_links.txt` (`none` when the file does not
exist), and `now` the value `Date.now()` returns during a request. -/
structure ServerState where
  scriptMappings : List (String × ScriptRecord)
  mappingsFile : List (String × ScriptRecord)
  excelData : List (String × List Row)
  uploads : List (String × List Row)
  linkLog : Option (List String)
  now : Nat
deriving DecidableEq, Repr

/-- Result of `POST /upload`. -/
inductive UploadOut where
  | badRequest (error : String)
  | ok (scriptId fileName clientName redirectUrl : String)
deriving DecidableEq, Repr

/-- Handler of `POST /upload` (src/app.js lines 41-84). The uploaded file
is given by its original name and its codec-decoded rows; multer stores it
under `uploads/fileName` (overwriting a same-named file) before the
handler body runs, so the write happens even when the handler rejects. -/
def upload (st : ServerState) (file : Option (String × List Row))
    (clientNameRaw : Option String) : UploadOut × ServerState :=
  let st1 := match file with
    | some fu => { st with uploads := objSet st.uploads fu.1 fu.2 }
    | none => st
  match file, clientNameRaw with
  | none, _ => (.badRequest "File and client name are required.", st1)
  | some _, none => (.badRequest "File and client name are required.", st1)
  | some (fileName, rows), some raw =>
    match raw == "" with
    | true => (.badRequest "File and client name are required.", st1)
    | false =>
      let clientName := strTrim raw
      match (st1.scriptMappings.map (fun p => p.2.clientName)).contains clientName with
      | true => (.badRequest "Client name already exists. Please choose a different name.", st1)
      | false =>
        let scriptId := toString st1.now
        let redirectUrl := "/ask/" ++ scriptId
        let newRecord : ScriptRecord := { scriptId, redirectUrl, clientName }
        let mappings := objSet st1.scriptMappings fileName newRecord
        let st2 := { st1 with scriptMappings := mappings, mappingsFile := mappings }
        match rows with
        | [] => (.badRequest "The uploaded file is empty or missing required columns.", st2)
        | r0 :: _ =>
          match !(jsTruthy (rowGet r0 "Question")) || !(jsTruthy (rowGet r0 "Answer")) with
          | true => (.badRequest "The uploaded file is empty or missing required columns.", st2)
          | false =>
            let st3 := { st2 with excelData := objSet st2.excelData scriptId rows }
            let line := "Client: " ++ clientName ++ ", Script ID: " ++ scriptId ++
              ", File: " ++ fileName ++ ", URL: http://65.1.176.171:8080" ++ redirectUrl
            let st4 := { st3 with linkLog := some ((st3.linkLog.getD []) ++ [line]) }
            (.ok scriptId fileName clientName redirectUrl, st4)

/-- Numeric value of a decimal digit character. -/
def digitVal (c : Char) : Nat := c.toNat - Char.toNat '0'

/-- Value of a decimal digit string, most significant digit first; used to
read back the `scriptId` strings produced by `Date.now().toString()`. -/
def decValue (l : List Char) : Nat :=
  l.foldl (fun acc c => acc * 10 + digitVal c) 0

/-- Decidable equality for `Except` results, so that concrete handler
outcomes can be settled by `decide`. -/
instance {ε α : Type} [DecidableEq ε] [DecidableEq α] :
    DecidableEq (Except ε α) := fun a b =>
  match a, b with
  | .error e, .error f =>
    if h : e = f then isTrue (by rw [h])
    else isFalse (fun hc => h (Except.error.inj hc))
  | .error _, .ok _ => isFalse (fun hc => Except.noConfusion hc)
  | .ok _, .error _ => isFalse (fun hc => Except.noConfusion hc)
  | .ok x, .ok y =>
    if h : x = y then isTrue (by rw [h])
    else isFalse (fun hc => h (Except.ok.inj hc))

/-- Result of `POST /process-speech/:id`: a 404 no-data payload or a 200
answer payload whose `answer` field may be absent (JS `undefined`). -/
inductive SpeechOut where
  | noData (answer : String)
  | answered (answer : Option String)
deriving DecidableEq, Repr

/-- Handler of `POST /process-speech/:id` (src/app.js lines 104-114). It
mutates no state; a thrown `TypeError` (escaping to the framework's 500
handler) is modelled as `.error`. `question?.toLowerCase()` is evaluated
before the `excelData` lookup, exactly as in the source. -/
def processSpeech (st : ServerState) (scriptId : String)
    (question : Option JsVal) : Except Unit SpeechOut :=
  match jsOptToLower question with
  | .error e => .error e
  | .ok userQuestion =>
    match objGet st.excelData scriptId with
    | none => .ok (.noData "No data found for this script.")
    | some sheet =>
      match fuseSearch sheet userQuestion with
      | .error e => .error e
      | .ok result =>
        match result with
        | r :: _ => .ok (.answered (rowGet r "Answer"))
        | [] => .ok (.answered (some "Sorry, please ask related questions."))

/-- Result of `GET /get-excel/:id`. -/
inductive GetOut where
  | notFound
  | ioError
  | sheetOut (sheet : List Row)
deriving DecidableEq, Repr

/-- `Object.entries(scriptMappings).find(([_, val]) => val.scriptId === id)`:
first entry carrying the given scriptId. -/
def findByScriptId (m : List (String × ScriptRecord)) (sid : String) :
    Option (String × ScriptRecord) :=
  m.find? (fun p => p.2.scriptId == sid)

/-- Handler of `GET /get-excel/:id` (src/app.js lines 117-130): locate the
record by scriptId, decode the backing file fresh from disk; a missing or
unreadable file is a 500 (`.ioError`). -/
def getExcel (st : ServerState) (scriptId : String) : GetOut :=
  match findByScriptId st.scriptMappings scriptId with
  | none => .notFound
  | some entry =>
    match objGet st.uploads entry.1 with
    | some rows => .sheetOut rows
    | none => .ioError

/-- Result of `PUT /update-excel`. -/
inductive UpdateOut where
  | badRequest
  | notFound
  | okMsg
deriving DecidableEq, Repr

/-- Handler of `PUT /update-excel` (src/app.js lines 133-165): body holds
`scriptId` (falsy rejected) and `sheet` (`none` models a non-array value,
rejected by `Array.isArray`). The rows are codec-encoded over the backing
file and re-decoded (the opaque codec returns exactly what was stored),
then the in-memory index entry is rebuilt from the re-decoded rows. -/
def updateExcel (st : ServerState) (scriptId : String)
    (sheet : Option (List Row)) : UpdateOut × ServerState :=
  match scriptId == "" with
  | true => (.badRequest, st)
  | false =>
    match sheet with
    | none => (.badRequest, st)
    | some rows =>
      match findByScriptId st.scriptMappings scriptId with
      | none => (.notFound, st)
      | some entry =>
        let uploads := objSet st.uploads entry.1 rows
        let updatedSheet := rows
        (.okMsg, { st with
          uploads,
          excelData := objSet st.excelData scriptId updatedSheet })

/-- Result of `DELETE /delete/:scriptId`. -/
inductive DeleteOut where
  | notFound
  | okMsg
  | serverError
deriving DecidableEq, Repr

/-- Handler of `DELETE /delete/:scriptId` (src/app.js lines 168-198):
delete the backing file if present, remove and persist the mapping entry,
drop the index entry, then rewrite `script_links.txt` without the lines
containing the scriptId. Reading `script_links.txt` throws when the file
does not exist; the catch block answers 500 with the earlier mutations
already applied. -/
def deleteScript (st : ServerState) (scriptId : String) :
    DeleteOut × ServerState :=
  match findByScriptId st.scriptMappings scriptId with
  | none => (.notFound, st)
  | some entry =>
    let st1 := { st with uploads := objDel st.uploads entry.1 }
    let m := objDel st1.scriptMappings entry.1
    let st2 := { st1 with scriptMappings := m, mappingsFile := m }
    let st3 := { st2 with excelData := objDel st2.excelData scriptId }
    match st3.linkLog with
    | none => (.serverError, st3)
    | some lines =>
      let kept := lines.filter (fun l => !(strIncludes l scriptId))
      (.okMsg, { st3 with linkLog := some kept })

/-! Concrete fixture states used by the witness and counterexample
theorems below. -/

/-- A well-formed sheet row. -/
def sampleRow : Row := [("Question", "What are your hours?"), ("Answer", "9-5")]

/-- A one-row sheet. -/
def sampleSheet : List Row := [sampleRow]

/-- A record as the upload handler would create it. -/
def sampleRecord : ScriptRecord :=
  { scriptId := "100", redirectUrl := "/ask/100", clientName := "Acme" }

/-- A server state holding one live upload (scriptId "100"). -/
def sampleState : ServerState :=
  { scriptMappings := [("faq.xlsx", sampleRecord)],
    mappingsFile := [("faq.xlsx", sampleRecord)],
    excelData := [("100", sampleSheet)],
    uploads := [("faq.xlsx", sampleSheet)],
    linkLog := some
      ["Client: Acme, Script ID: 100, File: faq.xlsx, URL: http://65.1.176.171:8080/ask/100"],
    now := 200 }

/-- The same state after `script_links.txt` has been removed externally. -/
def sampleStateNoLog : ServerState := { sampleState with linkLog := none }

/-- A replacement sheet for update/upload fixtures. -/
def newSheet : List Row := [[("Question", "New?"), ("Answer", "yes")]]

/-- A sheet whose first row lacks both required columns. -/
def badSheet : List Row := [[("Q", "x")]]

/-- A sheet holding two rows whose Questions coincide up to case but whose
Answers differ. -/
def dupSheet : List Row :=
  [[("Question", "Hi"), ("Answer", "one")], [("Question", "hi"), ("Answer", "two")]]

/-- A state whose question index for scriptId "7" is `dupSheet`. -/
def dupState : ServerState :=
  { scriptMappings :=
      [("dup.xlsx", { scriptId := "7", redirectUrl := "/ask/7", clientName := "Dup" })],
    mappingsFile :=
      [("dup.xlsx", { scriptId := "7", redirectUrl := "/ask/7", clientName := "Dup" })],
    excelData := [("7", dupSheet)],
    uploads := [("dup.xlsx", dupSheet)],
    linkLog := some [],
    now := 9 }

/-- The freshly-started server: nothing uploaded, clock at 0. -/
def emptyState : ServerState :=
  { scriptMappings := [], mappingsFile := [], excelData := [], uploads := [],
    linkLog := none, now := 0 }

/-- The empty server one millisecond later. -/
def tickState : ServerState := { emptyState with now := 1 }

/-- First of two uploads performed in the same millisecond (the clock does
not advance between requests). -/
def uploadA : UploadOut × ServerState :=
  upload emptyState (some ("a.xlsx", sampleSheet)) (some "c1")

/-- Second upload of the pair, issued on the state `uploadA` left behind,
still in the same millisecond. -/
def uploadB : UploadOut × ServerState :=
  upload uploadA.2 (some ("b.xlsx", sampleSheet)) (some "c2")

/-! Helper lemmas about the JS-object operations. -/

theorem bool_eq_false {b : Bool} (h : ¬(b = true)) : b = false := by
  cases b with
  | false => rfl
  | true => exact absurd rfl h

theorem find?_map_replace {α : Type} (k : String) (v : α) :
    ∀ m : List (String × α), m.any (fun p => p.1 == k) = true →
    (m.map (fun p => match p.1 == k with | true => (k, v) | false => p)).find?
      (fun p => p.1 == k) = some (k, v) := by
  intro m
  induction m with
  | nil => intro h; simp at h
  | cons p t ih =>
    intro h
    cases hpk : p.1 == k with
    | true => simp only [List.map_cons, hpk, List.find?_cons, beq_self_eq_true]
    | false =>
      rw [List.any_cons, hpk, Bool.false_or] at h
      simp only [List.map_cons, hpk, List.find?_cons]
      exact ih h

theorem find?_append_key {α : Type} (k : String) (v : α) :
    ∀ m : List (String × α), m.any (fun p => p.1 == k) = false →
    (m ++ [(k, v)]).find? (fun p => p.1 == k) = some (k, v) := by
  intro m
  induction m with
  | nil => intro _; simp only [List.nil_append, List.find?_cons, beq_self_eq_true]
  | cons p t ih =>
    intro h
    rw [List.any_cons, Bool.or_eq_false_iff] at h
    simp only [List.cons_append, List.find?_cons, h.1]
    exact ih h.2

theorem objGet_objSet_self {α : Type} (m : List (String × α)) (k : String) (v : α) :
    objGet (objSet m k v) k = some v := by
  cases hany : m.any (fun p => p.1 == k) with
  | true =>
    simp only [objGet, objSet, hany]
    rw [find?_map_replace k v m hany]
    rfl
  | false =>
    simp only [objGet, objSet, hany]
    rw [find?_append_key k v m hany]
    rfl

theorem find?_map_replace_ne {α : Type} (k k' : String) (v : α)
    (h : (k == k') = false) :
    ∀ m : List (String × α),
    (m.map (fun p => match p.1 == k with | true => (k, v) | false => p)).find?
        (fun p => p.1 == k') =
      (m.find? (fun p => p.1 == k')).map
        (fun p => match p.1 == k with | true => (k, v) | false => p) := by
  intro m
  induction m with
  | nil => rfl
  | cons p t ih =>
    cases hpk : p.1 == k with
    | true =>
      have hp1 : p.1 = k := by simpa using hpk
      have hp' : (p.1 == k') = false := by rw [hp1]; exact h
      simp only [List.map_cons, hpk, List.find?_cons, h, hp']
      exact ih
    | false =>
      cases hpk' : p.1 == k' with
      | true =>
        simp only [List.map_cons, hpk, List.find?_cons, hpk']
        simp [hpk]
      | false =>
        simp only [List.map_cons, hpk, List.find?_cons, hpk']
        exact ih

theorem find?_append_ne {α : Type} (k k' : String) (v : α)
    (h : (k == k') = false) :
    ∀ m : List (String × α),
    (m ++ [(k, v)]).find? (fun p => p.1 == k') =
      m.find? (fun p => p.1 == k') := by
  intro m
  induction m with
  | nil => simp only [List.nil_append, List.find?_cons, h]
  | cons p t ih =>
    cases hpk' : p.1 == k' with
    | true => simp only [List.cons_append, List.find?_cons, hpk']
    | false =>
      simp only [List.cons_append, List.find?_cons, hpk']
      exact ih

theorem objGet_objSet_ne {α : Type} (m : List (String × α)) (k k' : String)
    (v : α) (h : (k == k') = false) :
    objGet (objSet m k v) k' = objGet m k' := by
  cases hany : m.any (fun p => p.1 == k) with
  | true =>
    simp only [objGet, objSet, hany]
    rw [find?_map_replace_ne k k' v h m]
    cases hf : m.find? (fun p => p.1 == k') with
    | none => rfl
    | some q =>
      have hq' : (q.1 == k') = true := List.find?_some (p := fun r : String × α => r.1 == k') hf
      have hq1 : q.1 = k' := by simpa using hq'
      have hqk : (q.1 == k) = false := by
        cases hkk : q.1 == k with
        | false => rfl
        | true =>
          have hq2 : q.1 = k := by simpa using hkk
          rw [hq2] at hq1
          rw [hq1] at h
          rw [beq_self_eq_true] at h
          exact absurd h (by simp)
      simp [hqk]
  | false =>
    simp only [objGet, objSet, hany]
    rw [find?_append_ne k k' v h m]

theorem mem_objSet {α : Type} (m : List (String × α)) (k : String) (v : α)
    (p : String × α) (hp : p ∈ objSet m k v) :
    p = (k, v) ∨ (p ∈ m ∧ (p.1 == k) = false) := by
  unfold objSet at hp
  cases hany : m.any (fun q => q.1 == k) with
  | true =>
    rw [hany] at hp
    simp only at hp
    rcases List.mem_map.mp hp with ⟨q, hq, hqp⟩
    cases hqk : q.1 == k with
    | true =>
      left
      rw [← hqp]
      simp only [hqk]
    | false =>
      right
      rw [← hqp]
      refine ⟨by simp only [hqk]; exact hq, by simp [hqk]⟩
  | false =>
    rw [hany] at hp
    simp only at hp
    rcases List.mem_append.mp hp with hq | hq
    · right
      refine ⟨hq, ?_⟩
      have := List.any_eq_false.mp hany p hq
      exact bool_eq_false this
    · left
      simpa using hq

theorem objGet_objDel_self {α : Type} (m : List (String × α)) (k : String) :
    objGet (objDel m k) k = none := by
  rw [objGet, objDel]
  have hnone : (m.filter (fun p => !(p.1 == k))).find? (fun p => p.1 == k) = none := by
    rw [List.find?_eq_none]
    intro p hp
    have h2 := (List.mem_filter.mp hp).2
    intro hb
    rw [hb] at h2
    exact absurd h2 (by simp)
  rw [hnone]
  rfl

theorem findByScriptId_objDel_eq_none (m : List (String × ScriptRecord))
    (fn sid : String)
    (hkey : ∀ p ∈ m, p.2.scriptId = sid → p.1 = fn) :
    findByScriptId (objDel m fn) sid = none := by
  rw [findByScriptId, List.find?_eq_none]
  intro p hp
  rcases List.mem_filter.mp hp with ⟨hpm, hpk⟩
  intro hb
  have hsid : p.2.scriptId = sid := by simpa using hb
  have h1 := hkey p hpm hsid
  rw [h1] at hpk
  exact absurd hpk (by simp)

theorem findByScriptId_objSet_eq_none (m : List (String × ScriptRecord))
    (fn sid : String) (nv : ScriptRecord) (hnv : ¬(nv.scriptId = sid))
    (hkey : ∀ p ∈ m, p.2.scriptId = sid → p.1 = fn) :
    findByScriptId (objSet m fn nv) sid = none := by
  rw [findByScriptId, List.find?_eq_none]
  intro p hp
  rcases mem_objSet m fn nv p hp with h | ⟨hpm, hpk⟩
  · rw [h]
    simpa using hnv
  · intro hb
    have hsid : p.2.scriptId = sid := by simpa using hb
    have h1 := hkey p hpm hsid
    rw [h1] at hpk
    exact absurd hpk (by simp)

theorem contains_of_mem (l : List String) (a : String) (h : a ∈ l) :
    l.contains a = true := by
  simpa [List.contains] using List.elem_iff.mpr h

theorem contains_eq_false_of_not_mem (l : List String) (a : String)
    (h : ¬ a ∈ l) : l.contains a = false := by
  refine bool_eq_false (fun hc => h ?_)
  exact List.elem_iff.mp (by simpa [List.contains] using hc)

/-! Injectivity of the decimal rendering behind `Date.now().toString()`. -/

theorem decValue_foldl_from (v : Nat) (l : List Char) :
    l.foldl (fun acc c => acc * 10 + digitVal c) v =
      v * 10 ^ l.length + decValue l := by
  induction l generalizing v with
  | nil => simp [decValue]
  | cons c t ih =>
    have h0 : decValue (c :: t) = digitVal c * 10 ^ t.length + decValue t := by
      rw [decValue, List.foldl_cons, ih (0 * 10 + digitVal c)]
      ring_nf
    rw [List.foldl_cons, ih (v * 10 + digitVal c), h0, List.length_cons]
    ring

theorem digitVal_digitChar (d : Nat) (h : d < 10) :
    digitVal (Nat.digitChar d) = d := by
  interval_cases d <;> rfl

theorem decValue_toDigitsCore (fuel : Nat) :
    ∀ n ds, n < fuel →
      decValue (Nat.toDigitsCore 10 fuel n ds) =
        n * 10 ^ ds.length + decValue ds := by
  induction fuel with
  | zero => intro n ds h; omega
  | succ f ih =>
    intro n ds h
    rw [Nat.toDigitsCore]
    have hmod : n % 10 < 10 := Nat.mod_lt _ (by norm_num)
    have hcons : decValue (Nat.digitChar (n % 10) :: ds) =
        (n % 10) * 10 ^ ds.length + decValue ds := by
      rw [decValue, List.foldl_cons, decValue_foldl_from]
      simp [digitVal_digitChar _ hmod]
    by_cases hdiv : n / 10 = 0
    · have hn10 : n < 10 := by
        rcases Nat.lt_or_ge n 10 with hlt | hge
        · exact hlt
        · exact absurd hdiv (by
            have : 1 ≤ n / 10 := Nat.le_div_iff_mul_le (by norm_num) |>.mpr (by omega)
            omega)
      rw [if_pos hdiv, hcons, Nat.mod_eq_of_lt hn10]
    · rw [if_neg hdiv]
      have hsmall : n / 10 < f := by
        have h1 : 1 ≤ n / 10 := Nat.one_le_iff_ne_zero.mpr hdiv
        have h2 : n / 10 < n := Nat.div_lt_self (by omega) (by norm_num)
        omega
      rw [ih (n / 10) (Nat.digitChar (n % 10) :: ds) hsmall, hcons, List.length_cons]
      have : n / 10 * 10 ^ (ds.length + 1) +
          ((n % 10) * 10 ^ ds.length + decValue ds) =
          (10 * (n / 10) + n % 10) * 10 ^ ds.length + decValue ds := by ring
      rw [this, Nat.div_add_mod]

theorem decValue_toDigits (n : Nat) : decValue (Nat.toDigits 10 n) = n := by
  have := decValue_toDigitsCore (n + 1) n [] (Nat.lt_succ_self n)
  simpa [Nat.toDigits, decValue] using this

theorem natRepr_injective (m n : Nat) (h : Nat.repr m = Nat.repr n) : m = n := by
  have hd : Nat.toDigits 10 m = Nat.toDigits 10 n := by
    have := congrArg String.data h
    simpa [Nat.repr, List.asString] using this
  have := congrArg decValue hd
  simpa [decValue_toDigits] using this

/-! Claim theorems. -/

/-- C2: for every live scriptId and row list of valid shape,
`updateSheet(scriptId, rows)` followed immediately by `getSheet(scriptId)`
returns a row sequence equal field-for-field to the rows written: the
update succeeds and the subsequent read decodes exactly `rows` from the
backing file. -/
theorem update_then_get_roundtrip (st : ServerState) (sid : String)
    (rows : List Row) (entry : String × ScriptRecord)
    (hsid : ¬(sid = ""))
    (hfind : findByScriptId st.scriptMappings sid = some entry) :
    (updateExcel st sid (some rows)).1 = .okMsg ∧
    getExcel (updateExcel st sid (some rows)).2 sid = .sheetOut rows := by
  have hbeq : (sid == "") = false := by
    refine bool_eq_false (fun hc => hsid ?_)
    simpa using hc
  constructor
  · simp [updateExcel, hbeq, hfind]
  · simp [updateExcel, hbeq, hfind, getExcel, objGet_objSet_self]

/-- C2 witness: a concrete update of the live scriptId "100" followed by a
read returns exactly the written rows. -/
theorem update_then_get_roundtrip_witness :
    (updateExcel sampleState "100" (some newSheet)).1 = .okMsg ∧
    getExcel (updateExcel sampleState "100" (some newSheet)).2 "100" =
      .sheetOut newSheet :=
  update_then_get_roundtrip sampleState "100" newSheet ("faq.xlsx", sampleRecord)
    (by decide) (by decide)

/-- C7: for every scriptId with no Question Index entry, `ask(scriptId, q)`
with a string question returns the "no data" answer payload with a
not-found status; it never throws (the result is `.ok`, not `.error`) and
the handler mutates no server state (by construction `processSpeech` is a
pure read of the state). -/
theorem ask_unknown_scriptId_noData (st : ServerState) (sid q : String)
    (h : objGet st.excelData sid = none) :
    processSpeech st sid (some (.str q)) =
      .ok (.noData "No data found for this script.") := by
  simp [processSpeech, jsOptToLower, h]

/-- C7 witness: asking an id that was never uploaded yields the no-data
payload. -/
theorem ask_unknown_scriptId_noData_witness :
    processSpeech sampleState "999" (some (.str "hello")) =
      .ok (.noData "No data found for this script.") :=
  ask_unknown_scriptId_noData sampleState "999" "hello" (by decide)

/-- C9: for every request to `ask` where a Question Index exists for the
scriptId but the body's `question` field is absent or not a string, the
handler does not produce the 200 answer-or-fallback response: it throws
(`.error`), because `question?.toLowerCase()` either yields `undefined`
(which the fuzzy search then rejects) or itself raises a `TypeError`. -/
theorem ask_nonstring_question_fails (st : ServerState) (sid : String)
    (sheet : List Row) (hidx : objGet st.excelData sid = some sheet)
    (q : Option JsVal) (hq : ∀ s, ¬(q = some (.str s))) :
    processSpeech st sid q = .error () := by
  match q with
  | none => simp [processSpeech, jsOptToLower, hidx, fuseSearch]
  | some .null => simp [processSpeech, jsOptToLower, hidx, fuseSearch]
  | some (.str s) => exact absurd rfl (hq s)
  | some (.num n) => simp [processSpeech, jsOptToLower]
  | some (.bool b) => simp [processSpeech, jsOptToLower]

/-- C9 witness: a request with no `question` field against a live index
fails instead of answering. -/
theorem ask_nonstring_question_fails_witness :
    processSpeech sampleState "100" none = .error () :=
  ask_nonstring_question_fails sampleState "100" sampleSheet (by decide) none
    (fun s h => by cases h)

/-- C10: for every live scriptId, when `script_links.txt` does not exist,
`delete(scriptId)` reports a server error even though the backing file was
already deleted, the Record Store entry removed and persisted, and the
Question Index entry removed: the state is not unchanged on the error. -/
theorem delete_missing_linkLog_partial_mutation (st : ServerState)
    (sid : String) (entry : String × ScriptRecord)
    (hfind : findByScriptId st.scriptMappings sid = some entry)
    (hlog : st.linkLog = none) :
    (deleteScript st sid).1 = .serverError ∧
    objGet (deleteScript st sid).2.uploads entry.1 = none ∧
    (deleteScript st sid).2.scriptMappings = objDel st.scriptMappings entry.1 ∧
    (deleteScript st sid).2.mappingsFile = objDel st.scriptMappings entry.1 ∧
    objGet (deleteScript st sid).2.excelData sid = none ∧
    (deleteScript st sid).2.linkLog = none := by
  simp [deleteScript, hfind, hlog, objGet_objDel_self]

/-- C10 witness: deleting the live scriptId "100" while the link log file
is absent errors out yet leaves the record, file and index removed. -/
theorem delete_missing_linkLog_partial_mutation_witness :
    (deleteScript sampleStateNoLog "100").1 = .serverError ∧
    objGet (deleteScript sampleStateNoLog "100").2.uploads "faq.xlsx" = none ∧
    (deleteScript sampleStateNoLog "100").2.scriptMappings =
      objDel sampleStateNoLog.scriptMappings "faq.xlsx" ∧
    (deleteScript sampleStateNoLog "100").2.mappingsFile =
      objDel sampleStateNoLog.scriptMappings "faq.xlsx" ∧
    objGet (deleteScript sampleStateNoLog "100").2.excelData "100" = none ∧
    (deleteScript sampleStateNoLog "100").2.linkLog = none :=
  delete_missing_linkLog_partial_mutation sampleStateNoLog "100"
    ("faq.xlsx", sampleRecord) (by decide) rfl

/-- C1 (amended): when a Question Index exists for the scriptId and at
least one stored row's Question equals the query up to case, `ask` returns
the Answer field of the first matching row in sheet order (hence that
row's Answer whenever no earlier row shares the same Question up to case),
never the fallback message. -/
theorem ask_exact_returns_first_match (st : ServerState) (sid q : String)
    (sheet : List Row) (r0 : Row) (rest : List Row)
    (hidx : objGet st.excelData sid = some sheet)
    (hfilter : sheet.filter (fuseMatches (strLower q)) = r0 :: rest) :
    processSpeech st sid (some (.str q)) =
      .ok (.answered (rowGet r0 "Answer")) := by
  simp [processSpeech, jsOptToLower, hidx, fuseSearch, hfilter]

/-- C1 witness: a case-differing exact question against the single-row
sample sheet returns that row's answer. -/
theorem ask_exact_returns_first_match_witness :
    processSpeech sampleState "100" (some (.str "WHAT ARE YOUR HOURS?")) =
      .ok (.answered (some "9-5")) :=
  ask_exact_returns_first_match sampleState "100" "WHAT ARE YOUR HOURS?"
    sampleSheet sampleRow [] (by decide) (by decide)

/-- C1 counterexample: in `dupState` the stored row
`[("Question", "hi"), ("Answer", "two")]` has a Question equal to the
query "HI" up to case, yet `ask` returns "one" (the first matching row's
Answer), not that row's Answer "two"; so a query matching a stored row's
Question does not in general return that row's Answer. -/
theorem ask_exact_duplicate_cex :
    ([("Question", "hi"), ("Answer", "two")] : Row) ∈ dupSheet ∧
    rowGet [("Question", "hi"), ("Answer", "two")] "Question" = some "hi" ∧
    strLower "HI" = strLower "hi" ∧
    processSpeech dupState "7" (some (.str "HI")) =
      .ok (.answered (some "one")) ∧
    ¬(processSpeech dupState "7" (some (.str "HI")) =
        .ok (.answered (some "two"))) := by
  refine ⟨by decide, by decide, by decide, by decide, by decide⟩

/-- C3: uploading with a clientName equal to a live record's clientName
yields the conflict error, and the Record Store, the persisted mapping
file, the Question Index table and the Link Log are all unchanged (the
uploads directory alone was touched, by multer, before the handler body
ran). Stored client names are trim-fixed because every record is created
from a trimmed name, hence `htrim`. -/
theorem upload_conflict_unchanged (st : ServerState) (fn : String)
    (rows : List Row) (raw : String) (p : String × ScriptRecord)
    (hp : p ∈ st.scriptMappings) (hcn : p.2.clientName = raw)
    (htrim : strTrim raw = raw) (hraw : ¬(raw = "")) :
    upload st (some (fn, rows)) (some raw) =
      (.badRequest "Client name already exists. Please choose a different name.",
       { st with uploads := objSet st.uploads fn rows }) := by
  have hbeq : (raw == "") = false := by
    refine bool_eq_false (fun hc => hraw ?_)
    simpa using hc
  have hcnt : p.2.clientName = strTrim raw := hcn.trans htrim.symm
  have hmem : strTrim raw ∈ st.scriptMappings.map (fun p => p.2.clientName) :=
    List.mem_map.mpr ⟨p, hp, hcnt⟩
  have hcont := contains_of_mem _ _ hmem
  simp only [upload, hbeq, hcont]

/-- C3 witness: re-using the live client name "Acme" is rejected and only
the uploads directory differs afterwards. -/
theorem upload_conflict_unchanged_witness :
    upload sampleState (some ("other.xlsx", newSheet)) (some "Acme") =
      (.badRequest "Client name already exists. Please choose a different name.",
       { sampleState with
         uploads := objSet sampleState.uploads "other.xlsx" newSheet }) :=
  upload_conflict_unchanged sampleState "other.xlsx" newSheet "Acme"
    ("faq.xlsx", sampleRecord) (by decide) rfl (by decide) (by decide)

/-- C5: an upload whose decoded sheet is empty or whose first row is
missing the Question or the Answer field is rejected with the
missing-columns client error, yet the record persisted beforehand remains
in the Record Store and in the mapping file, while the Question Index
table and the Link Log are untouched. -/
theorem upload_invalid_sheet_keeps_record (st : ServerState) (fn raw : String)
    (rows : List Row) (hraw : ¬(raw = ""))
    (hconf : ¬(strTrim raw ∈ st.scriptMappings.map (fun p => p.2.clientName)))
    (hbad : rows = [] ∨ ∃ r0 rest, rows = r0 :: rest ∧
      (rowGet r0 "Question" = none ∨ rowGet r0 "Answer" = none)) :
    upload st (some (fn, rows)) (some raw) =
      (.badRequest "The uploaded file is empty or missing required columns.",
       { st with
         uploads := objSet st.uploads fn rows,
         scriptMappings := objSet st.scriptMappings fn
           { scriptId := toString st.now,
             redirectUrl := "/ask/" ++ toString st.now,
             clientName := strTrim raw },
         mappingsFile := objSet st.scriptMappings fn
           { scriptId := toString st.now,
             redirectUrl := "/ask/" ++ toString st.now,
             clientName := strTrim raw } }) := by
  have hbeq : (raw == "") = false := by
    refine bool_eq_false (fun hc => hraw ?_)
    simpa using hc
  have hcont := contains_eq_false_of_not_mem _ _ hconf
  rcases hbad with hnil | ⟨r0, rest, hr, hmiss⟩
  · subst hnil
    simp only [upload, hbeq, hcont]
  · subst hr
    rcases hmiss with hm | hm
    · have hv : (!(jsTruthy (rowGet r0 "Question")) ||
          !(jsTruthy (rowGet r0 "Answer"))) = true := by
        rw [hm]
        rfl
      simp only [upload, hbeq, hcont, hv]
    · have hv : (!(jsTruthy (rowGet r0 "Question")) ||
          !(jsTruthy (rowGet r0 "Answer"))) = true := by
        rw [hm]
        simp [jsTruthy]
      simp only [upload, hbeq, hcont, hv]

/-- C5 witness: uploading a sheet whose only row has neither Question nor
Answer is rejected while the freshly persisted record stays. -/
theorem upload_invalid_sheet_keeps_record_witness :
    upload sampleState (some ("new.xlsx", badSheet)) (some "Beta") =
      (.badRequest "The uploaded file is empty or missing required columns.",
       { sampleState with
         uploads := objSet sampleState.uploads "new.xlsx" badSheet,
         scriptMappings := objSet sampleState.scriptMappings "new.xlsx"
           { scriptId := toString sampleState.now,
             redirectUrl := "/ask/" ++ toString sampleState.now,
             clientName := strTrim "Beta" },
         mappingsFile := objSet sampleState.scriptMappings "new.xlsx"
           { scriptId := toString sampleState.now,
             redirectUrl := "/ask/" ++ toString sampleState.now,
             clientName := strTrim "Beta" } }) :=
  upload_invalid_sheet_keeps_record sampleState "new.xlsx" "Beta" badSheet
    (by decide) (by decide)
    (Or.inr ⟨[("Q", "x")], [], rfl, Or.inl (by decide)⟩)

/-- C6: for every live scriptId (the unique holder of its scriptId, per
the data-model invariant) with the link log file present, a successful
delete followed by a read yields not-found, the backing file is gone, the
Question Index entry is removed, and no remaining Link Log line contains
the scriptId. -/
theorem delete_then_get_notFound (st : ServerState) (sid : String)
    (entry : String × ScriptRecord) (lines : List String)
    (hfind : findByScriptId st.scriptMappings sid = some entry)
    (hkey : ∀ p ∈ st.scriptMappings, p.2.scriptId = sid → p.1 = entry.1)
    (hlog : st.linkLog = some lines) :
    (deleteScript st sid).1 = .okMsg ∧
    getExcel (deleteScript st sid).2 sid = .notFound ∧
    objGet (deleteScript st sid).2.uploads entry.1 = none ∧
    objGet (deleteScript st sid).2.excelData sid = none ∧
    (∀ l ∈ ((deleteScript st sid).2.linkLog.getD []),
      strIncludes l sid = false) := by
  refine ⟨?_, ?_, ?_, ?_, ?_⟩
  · simp [deleteScript, hfind, hlog]
  · simp [deleteScript, hfind, hlog, getExcel,
      findByScriptId_objDel_eq_none st.scriptMappings entry.1 sid hkey]
  · simp [deleteScript, hfind, hlog, objGet_objDel_self]
  · simp [deleteScript, hfind, hlog, objGet_objDel_self]
  · intro l hl
    have hl2 : l ∈ lines.filter (fun l => !(strIncludes l sid)) := by
      simpa [deleteScript, hfind, hlog] using hl
    have hl3 := (List.mem_filter.mp hl2).2
    simpa using hl3

/-- C6 witness: deleting the live scriptId "100" succeeds, the subsequent
read is not-found, and file and index entries are gone. -/
theorem delete_then_get_notFound_witness :
    (deleteScript sampleState "100").1 = .okMsg ∧
    getExcel (deleteScript sampleState "100").2 "100" = .notFound ∧
    objGet (deleteScript sampleState "100").2.uploads "faq.xlsx" = none ∧
    objGet (deleteScript sampleState "100").2.excelData "100" = none := by
  have h := delete_then_get_notFound sampleState "100" ("faq.xlsx", sampleRecord)
    ["Client: Acme, Script ID: 100, File: faq.xlsx, URL: http://65.1.176.171:8080/ask/100"]
    (by decide) (by decide) rfl
  exact ⟨h.1, h.2.1, h.2.2.1, h.2.2.2.1⟩

/-- Characterization used by C4: every successful upload returns the
decimal string of the `Date.now()` value observed by the request. -/
theorem upload_ok_scriptId (st : ServerState) (file : Option (String × List Row))
    (c : Option String) (sid fn cn u : String)
    (h : (upload st file c).1 = .ok sid fn cn u) : sid = toString st.now := by
  rcases file with _ | ⟨fileName, rows⟩
  · simp only [upload] at h
    exact UploadOut.noConfusion h
  rcases c with _ | raw
  · simp only [upload] at h
    exact UploadOut.noConfusion h
  by_cases h0 : (raw == "") = true
  · simp only [upload, h0] at h
    exact UploadOut.noConfusion h
  have h0f : (raw == "") = false := bool_eq_false h0
  by_cases h1 : ((st.scriptMappings.map (fun p => p.2.clientName)).contains
      (strTrim raw)) = true
  · simp only [upload, h0f, h1] at h
    exact UploadOut.noConfusion h
  have h1f := bool_eq_false h1
  rcases rows with _ | ⟨r0, rest⟩
  · simp only [upload, h0f, h1f] at h
    exact UploadOut.noConfusion h
  by_cases h2 : (!(jsTruthy (rowGet r0 "Question")) ||
      !(jsTruthy (rowGet r0 "Answer"))) = true
  · simp only [upload, h0f, h1f, h2] at h
    exact UploadOut.noConfusion h
  · have h2f := bool_eq_false h2
    simp only [upload, h0f, h1f, h2f] at h
    injection h with e1 e2 e3 e4
    exact e1.symm

/-- C4 counterexample: two distinct successful uploads (different files,
different client names) performed in the same millisecond — the clock
`Date.now()` not having advanced between the requests — both return the
scriptId "0", so the returned scriptId is not unique across uploads in the
same process run. -/
theorem upload_same_millisecond_scriptId_collision :
    uploadA.1 = .ok "0" "a.xlsx" "c1" "/ask/0" ∧
    uploadB.1 = .ok "0" "b.xlsx" "c2" "/ask/0" := by
  constructor
  · decide
  · decide

/-- C4 (amended): the scriptIds of two successful uploads are distinct
provided the two requests observe different `Date.now()` values; uploads
falling in the same millisecond receive the same scriptId. -/
theorem upload_distinct_timestamps_distinct_scriptIds
    (st₁ st₂ : ServerState) (f₁ f₂ : Option (String × List Row))
    (c₁ c₂ : Option String) (sid₁ sid₂ fn₁ fn₂ cn₁ cn₂ u₁ u₂ : String)
    (h1 : (upload st₁ f₁ c₁).1 = .ok sid₁ fn₁ cn₁ u₁)
    (h2 : (upload st₂ f₂ c₂).1 = .ok sid₂ fn₂ cn₂ u₂)
    (hnow : ¬(st₁.now = st₂.now)) : ¬(sid₁ = sid₂) := by
  rw [upload_ok_scriptId st₁ f₁ c₁ sid₁ fn₁ cn₁ u₁ h1,
    upload_ok_scriptId st₂ f₂ c₂ sid₂ fn₂ cn₂ u₂ h2]
  intro hc
  exact hnow (natRepr_injective st₁.now st₂.now hc)

/-- C4 witness: uploads at clock values 0 and 1 produce scriptIds "0" and
"1", which the amended theorem proves distinct. -/
theorem upload_distinct_timestamps_distinct_scriptIds_witness :
    (upload emptyState (some ("a.xlsx", sampleSheet)) (some "c1")).1 =
      .ok "0" "a.xlsx" "c1" "/ask/0" ∧
    (upload tickState (some ("b.xlsx", sampleSheet)) (some "c2")).1 =
      .ok "1" "b.xlsx" "c2" "/ask/1" ∧
    ¬(("0" : String) = "1") :=
  ⟨by decide, by decide,
   upload_distinct_timestamps_distinct_scriptIds emptyState tickState
     (some ("a.xlsx", sampleSheet)) (some ("b.xlsx", sampleSheet))
     (some "c1") (some "c2") "0" "1" "a.xlsx" "b.xlsx" "c1" "c2" "/ask/0" "/ask/1"
     (by decide) (by decide) (by decide)⟩

/-- C8: a successful upload re-using the fileName of a live record
replaces that record under the fileName key — afterwards no Record Store
entry resolves the old scriptId — yet the old scriptId's Question Index
entry survives, and `ask` on the old scriptId still answers exactly as
before the upload, from the old sheet. -/
theorem upload_same_fileName_stale_index (st : ServerState) (fn : String)
    (oldRec : ScriptRecord) (rows : List Row) (raw : String)
    (oldSheet : List Row) (q : String) (r0 : Row) (rest : List Row)
    (hold : (fn, oldRec) ∈ st.scriptMappings)
    (hkey : ∀ p ∈ st.scriptMappings, p.2.scriptId = oldRec.scriptId → p.1 = fn)
    (hidx : objGet st.excelData oldRec.scriptId = some oldSheet)
    (hraw : ¬(raw = ""))
    (hconf : ¬(strTrim raw ∈ st.scriptMappings.map (fun p => p.2.clientName)))
    (hnew : ¬(toString st.now = oldRec.scriptId))
    (hrows : rows = r0 :: rest)
    (hQ : jsTruthy (rowGet r0 "Question") = true)
    (hA : jsTruthy (rowGet r0 "Answer") = true) :
    (upload st (some (fn, rows)) (some raw)).1 =
      .ok (toString st.now) fn (strTrim raw) ("/ask/" ++ toString st.now) ∧
    findByScriptId (upload st (some (fn, rows)) (some raw)).2.scriptMappings
      oldRec.scriptId = none ∧
    objGet (upload st (some (fn, rows)) (some raw)).2.excelData
      oldRec.scriptId = some oldSheet ∧
    processSpeech (upload st (some (fn, rows)) (some raw)).2 oldRec.scriptId
      (some (.str q)) = processSpeech st oldRec.scriptId (some (.str q)) := by
  have hbeq : (raw == "") = false := by
    refine bool_eq_false (fun hc => hraw ?_)
    simpa using hc
  have hcont := contains_eq_false_of_not_mem _ _ hconf
  have hcond : (!(jsTruthy (rowGet r0 "Question")) ||
      !(jsTruthy (rowGet r0 "Answer"))) = false := by
    rw [hQ, hA]
    rfl
  subst hrows
  have hsid : objGet (objSet st.excelData (toString st.now) (r0 :: rest))
      oldRec.scriptId = some oldSheet := by
    rw [objGet_objSet_ne st.excelData (toString st.now) oldRec.scriptId
      (r0 :: rest) (by refine bool_eq_false (fun hc => hnew ?_); simpa using hc)]
    exact hidx
  refine ⟨?_, ?_, ?_, ?_⟩
  · simp only [upload, hbeq, hcont, hcond]
  · simp only [upload, hbeq, hcont, hcond]
    exact findByScriptId_objSet_eq_none st.scriptMappings fn oldRec.scriptId
      { scriptId := toString st.now, redirectUrl := "/ask/" ++ toString st.now,
        clientName := strTrim raw } hnew hkey
  · simp only [upload, hbeq, hcont, hcond]
    exact hsid
  · simp only [upload, hbeq, hcont, hcond, processSpeech, jsOptToLower]
    rw [hsid, hidx]

/-- C8 witness: uploading "faq.xlsx" again under client "Beta" replaces
the record, the old scriptId "100" resolves to no record, yet its index
entry survives and `ask` on it answers exactly as before. -/
theorem upload_same_fileName_stale_index_witness :
    (upload sampleState (some ("faq.xlsx", newSheet)) (some "Beta")).1 =
      .ok "200" "faq.xlsx" "Beta" "/ask/200" ∧
    findByScriptId
      (upload sampleState (some ("faq.xlsx", newSheet)) (some "Beta")).2.scriptMappings
      "100" = none ∧
    objGet (upload sampleState (some ("faq.xlsx", newSheet)) (some "Beta")).2.excelData
      "100" = some sampleSheet ∧
    processSpeech (upload sampleState (some ("faq.xlsx", newSheet)) (some "Beta")).2
      "100" (some (.str "what are your hours?")) =
      processSpeech sampleState "100" (some (.str "what are your hours?")) :=
  upload_same_fileName_stale_index sampleState "faq.xlsx" sampleRecord newSheet
    "Beta" sampleSheet "what are your hours?"
    [("Question", "New?"), ("Answer", "yes")] []
    (by decide) (by decide) (by decide) (by decide) (by decide) (by decide)
    rfl (by decide) (by decide)

end QnaApp
